import Mathlib

/-!
Shallow embedding of `mapshader/sources.py`: the map-source lifecycle
(constructor, lazy `load`, transform pipeline with overview propagation),
the extent resolvers of `RasterSource` and `VectorSource`, descriptor
subtype resolution (`MapSource.from_obj`) and the catalog builder
(`parse_sources`).

Data objects handled by the pipeline are opaque to `sources.py` (they are
produced by the external loaders `load_raster` / `load_vector` and mutated
only through registry transforms), so the lifecycle part of the model is
polymorphic in the data type `D`, with the loaders, the field projection
and the `isinstance(data, GeoDataFrame)` test passed in as functions.
Transform steps carry their resolved callable (the external
`get_transform_by_name` registry lookup) with the declared `args` already
applied; because `sources.py` dispatches on whether the step *name*
contains the substring `overviews`, a step carries both the data-shaped
and the mapping-shaped result of that callable.

Python exceptions are modelled with `Except PyError`; colormap/legend
attributes (`cmap`, `color_key`, `legend`) are rendering configuration
never consulted by the lifecycle code and are not modelled.
-/

namespace Mapshader

/-- Whether the first list occurs contiguously inside the second. -/
def listInfix (needle : List Char) : List Char → Bool
  | [] => needle.isEmpty
  | c :: rest => needle.isPrefixOf (c :: rest) || listInfix needle rest

/-- Python's substring test `needle in haystack`. -/
def strContains (haystack needle : String) : Bool :=
  listInfix needle.toList haystack.toList

/-- The Python exceptions that the modelled code can raise. -/
inductive PyError where
  | valueError (msg : String)
  | attributeError (msg : String)
  | typeError (msg : String)
  | keyError (msg : String)
deriving DecidableEq, Repr

/-- The `span` constructor argument: either a string policy such as
`"min/max"` or an explicit `(lo, hi)` pair. -/
inductive SpanVal where
  | str (s : String)
  | pair (lo hi : Int)
deriving DecidableEq, Repr

/-- Python `span == 'min/max'` (a `None` or tuple span compares unequal). -/
def spanEqMinMax : Option SpanVal → Bool
  | some (.str s) => s == "min/max"
  | _ => false

/-- Truthiness of an optional string (`None` and `''` are falsy). -/
def truthyStr : Option String → Bool
  | none => false
  | some s => s != ""

/-- One declared transform step, with the callable resolved from the
external registry and its declared `args` already applied.  `dataFunc` is
the result used on the `else` branch of `_apply_transforms` (data in, data
out); `overviewFunc` is the result used on the overview-builder branch
(data in, level mapping out). -/
structure TransformStep (D : Type) where
  name : String
  dataFunc : D → D
  overviewFunc : D → List (String × D)

/-- The branch test of `_apply_transforms`: `'overviews' in transform_name`. -/
def isOverviewStep {D : Type} (t : TransformStep D) : Bool :=
  strContains t.name "overviews"

/-- The mutable pair `(self.data, self.overviews)` threaded through
`_apply_transforms`. -/
structure PipeState (D : Type) where
  data : D
  overviews : List (String × D)

/-- One iteration of the `for trans in self.transforms` loop:
an overview-builder step replaces `self.overviews` with
`func(self.data, **args)`; any other step replaces `self.data` with
`func(self.data, **args)` and then re-applies the same callable to every
existing overview entry. -/
def applyStep {D : Type} (st : PipeState D) (t : TransformStep D) : PipeState D :=
  if isOverviewStep t then
    { st with overviews := t.overviewFunc st.data }
  else
    { data := t.dataFunc st.data,
      overviews := st.overviews.map (fun p => (p.1, t.dataFunc p.2)) }

/-- `MapSource._apply_transforms`: the declared steps in declared order. -/
def MapSource.apply_transforms {D : Type} (steps : List (TransformStep D))
    (st : PipeState D) : PipeState D :=
  steps.foldl applyStep st

/-- The runtime state of a `MapSource` instance: the attributes assigned by
`MapSource.__init__` plus the mutable load state.  Field defaults appear
only for convenience when building concrete instances; the constructor
model `MapSource.init` always assigns every field explicitly. -/
structure MapSource (D : Type) where
  name : Option String := none
  description : Option String := none
  filepath : Option String := none
  config_path : Option String := none
  geometry_type : Option String := none
  key : Option String := none
  text : Option String := none
  fields : Option (List String) := none
  span : Option SpanVal := none
  route : Option String := none
  xfield : String := "geometry"
  raster_padding : Nat := 0
  yfield : String := "geometry"
  zfield : Option String := none
  agg_func : Option String := none
  overviews : List (String × D) := []
  raster_agg_func : String := "linear"
  shade_how : String := "linear"
  dynspread : Option Nat := none
  extras : List String := []
  service_types : List String := ["tile", "image", "wms", "geojson"]
  transforms : List (TransformStep D) := []
  default_extent : List Rat := []
  default_width : Nat := 256
  default_height : Nat := 256
  preload : Bool := false
  geometry_field : String := "geometry"
  is_loaded : Bool := false
  data : Option D := none

/-- The keyword arguments of `MapSource.__init__`, with the Python default
values. -/
structure MapSourceArgs (D : Type) where
  name : Option String := none
  description : Option String := none
  filepath : Option String := none
  config_path : Option String := none
  data : Option D := none
  geometry_type : Option String := none
  key : Option String := none
  text : Option String := none
  fields : Option (List String) := none
  span : Option SpanVal := none
  route : Option String := none
  geometry_field : String := "geometry"
  xfield : String := "geometry"
  yfield : String := "geometry"
  zfield : Option String := none
  agg_func : Option String := none
  raster_interpolate : String := "linear"
  shade_how : String := "linear"
  dynspread : Option Nat := none
  extras : Option (List String) := none
  raster_padding : Nat := 0
  service_types : Option (List String) := none
  default_extent : Option (List Rat) := none
  default_width : Nat := 256
  default_height : Nat := 256
  overviews : Option (List (String × D)) := none
  transforms : Option (List (TransformStep D)) := none
  preload : Bool := false

/-- The literal `20037508.3427892` used for the default extent. -/
def webMercatorBound : Rat := 200375083427892 / 10000000

/-- How `MapSource.load` resolves the dataset path: the branch taken and
the strings it combines. -/
inductive ResolvedPath where
  | configRelative (config_path filepath : String)
  | zipfile (filepath : String)
  | cwdRelative (filepath : String)
  | absolute (filepath : String)
deriving DecidableEq, Repr

/-- Python's `str.startswith`. -/
def strStartsWith (s pre : String) : Bool := pre.toList.isPrefixOf s.toList

/-- `os.path.isabs` for the POSIX paths handled here. -/
def isAbsPath (p : String) : Bool := strStartsWith p "/"

/-- Whether a resolved path came from the configuration-directory branch. -/
def ResolvedPath.isConfigRelative : ResolvedPath → Bool
  | .configRelative _ _ => true
  | _ => false

/-- The path-resolution cascade of `MapSource.load` when no `config_path`
is known: archive paths and absolute paths pass through, anything else is
resolved against the current working directory; a `None` filepath fails
like the attribute access `None.startswith` would. -/
def resolveNoConfig : Option String → Except PyError ResolvedPath
  | none => .error (.attributeError "NoneType object has no attribute startswith")
  | some fp =>
    if strStartsWith fp "zip" then .ok (.zipfile fp)
    else if !isAbsPath fp then .ok (.cwdRelative fp)
    else .ok (.absolute fp)

/-- The full path-resolution cascade of `MapSource.load`: a truthy
`config_path` resolves the filepath relative to the configuration
directory, otherwise the no-config cascade applies. -/
def resolveDataPath (config_path filepath : Option String) : Except PyError ResolvedPath :=
  match config_path with
  | some cp =>
    if cp != "" then
      match filepath with
      | some fp => .ok (.configRelative cp fp)
      | none => .error (.typeError "expected str, bytes or os.PathLike object, not NoneType")
    else resolveNoConfig filepath
  | none => resolveNoConfig filepath

/-- The tail of `MapSource.load` plus `MapSource._finish_load`: project the
raw data object to the declared fields when a truthy field list is
present, run the transform pipeline, store the results and mark the
source loaded. -/
def MapSource.finish_load {D : Type} (project : D → List String → D)
    (s : MapSource D) (data0 : D) : MapSource D :=
  let data1 :=
    match s.fields with
    | some fs => if fs.isEmpty then data0 else project data0 fs
    | none => data0
  let res := MapSource.apply_transforms s.transforms ⟨data1, s.overviews⟩
  { s with data := some res.data, overviews := res.overviews, is_loaded := true }

/-- `MapSource.load`: no-op when already loaded; otherwise obtain the data
object (the construction-time object if one was supplied, else the
format-specific loader `load_func` applied to the resolved path) and hand
it to `finish_load`. -/
def MapSource.load {D : Type} (load_func : ResolvedPath → D)
    (project : D → List String → D) (s : MapSource D) :
    Except PyError (MapSource D) :=
  if s.is_loaded then .ok s
  else
    match s.data with
    | some d => .ok (MapSource.finish_load project s d)
    | none =>
      match resolveDataPath s.config_path s.filepath with
      | .ok dp => .ok (MapSource.finish_load project s (load_func dp))
      | .error e => .error e

/-- The attribute assignments of `MapSource.__init__` (after the argument
defaulting at its top), before the eager-load trigger runs. -/
def MapSource.base {D : Type} (isGeoDataFrame : D → Bool) (a : MapSourceArgs D) :
    MapSource D :=
  let fields :=
    match a.fields with
    | some fs => some fs
    | none =>
      match a.data with
      | some d =>
        if isGeoDataFrame d then
          some ([a.geometry_field] ++
            (match a.zfield with
             | some z => if z == "" then [] else [z]
             | none => []))
        else none
      | none => none
  { name := a.name
    description := a.description
    filepath := a.filepath
    config_path := a.config_path
    geometry_type := a.geometry_type
    key := a.key
    text := a.text
    fields := fields
    span := a.span
    route := a.route
    xfield := a.xfield
    raster_padding := 0
    yfield := a.yfield
    zfield := a.zfield
    agg_func := a.agg_func
    overviews := a.overviews.getD []
    raster_agg_func := a.raster_interpolate
    shade_how := a.shade_how
    dynspread := a.dynspread
    extras := a.extras.getD []
    service_types := a.service_types.getD ["tile", "image", "wms", "geojson"]
    transforms := a.transforms.getD []
    default_extent := a.default_extent.getD
      [-webMercatorBound, -webMercatorBound, webMercatorBound, webMercatorBound]
    default_width := a.default_width
    default_height := a.default_height
    preload := a.preload
    geometry_field := a.geometry_field
    is_loaded := false
    data := a.data }

/-- The message of the `ValueError` raised by the span/zfield check. -/
def zfieldErrorMsg : String := "You must include a zfield for min/max scan calculation"

/-- `MapSource.__init__`: raise when `span == 'min/max'` is declared for a
non-raster geometry without a `zfield`; otherwise assign the attributes
and eagerly `load()` when `preload` is set or some declared transform name
contains `overviews`. -/
def MapSource.init {D : Type} (load_func : ResolvedPath → D)
    (project : D → List String → D) (isGeoDataFrame : D → Bool)
    (a : MapSourceArgs D) : Except PyError (MapSource D) :=
  if spanEqMinMax a.span = true ∧ a.zfield = none ∧ a.geometry_type ≠ some "raster" then
    .error (.valueError zfieldErrorMsg)
  else
    let st := MapSource.base isGeoDataFrame a
    if a.preload || ((st.transforms.filter (fun t => strContains t.name "overviews")).length != 0) then
      MapSource.load load_func project st
    else
      .ok st

/-- The subtype picked by `MapSource.from_obj`: `RasterSource` uses
`load_raster`, `VectorSource` uses `load_vector`. -/
inductive TypedSource (D : Type) where
  | raster (s : MapSource D)
  | vector (s : MapSource D)

/-- Whether `from_obj` resolved the descriptor to `RasterSource`. -/
def TypedSource.isRaster {D : Type} : TypedSource D → Bool
  | .raster _ => true
  | .vector _ => false

/-- The underlying `MapSource` state of either subtype. -/
def TypedSource.state {D : Type} : TypedSource D → MapSource D
  | .raster s => s
  | .vector s => s

/-- `MapSource.from_obj`: a raw descriptor is raster-backed when it
declares `geometry_type == 'raster'` or its (truthy, list-shaped)
transform list declares a `raster_to_categorical_points` step; all other
descriptors are vector-backed. -/
def MapSource.from_obj {D : Type} (load_raster load_vector : ResolvedPath → D)
    (project : D → List String → D) (isGeoDataFrame : D → Bool)
    (obj : MapSourceArgs D) : Except PyError (TypedSource D) :=
  let has_to_vector : Bool :=
    match obj.transforms with
    | some ts =>
      !ts.isEmpty &&
        ((ts.filter (fun t => t.name == "raster_to_categorical_points")).length != 0)
    | none => false
  if obj.geometry_type = some "raster" ∨ has_to_vector = true then
    (MapSource.init load_raster project isGeoDataFrame obj).map .raster
  else
    (MapSource.init load_vector project isGeoDataFrame obj).map .vector

/-- One service façade yielded by `parse_sources`: the service class picked
from the `service_classes` table (identified here by the service-type
string) wrapping the constructed source object. -/
structure Facade (D : Type) where
  service_type : String
  source : TypedSource D

/-- The keys of the `service_classes` table in `parse_sources`. -/
def service_classes : List String := ["tile", "wms", "image", "geojson"]

/-- The filter test of `parse_sources`:
`contains and contains not in source.get('key')`; a truthy filter applied
to a missing key raises like Python's `in` on `None`. -/
def skipCheck (contains : Option String) (key : Option String) : Except PyError Bool :=
  match contains with
  | none => .ok false
  | some c =>
    if c = "" then .ok false
    else
      match key with
      | none => .error (.typeError "argument of type NoneType is not iterable")
      | some k => .ok (!strContains k c)

/-- The inner `for service_type in source['service_types']` loop of
`parse_sources`: assign `config_path` into the raw descriptor dictionary
(never read again afterwards), skip the service type when the filter test
fires, look the service class up (a `KeyError` for an undeclared service
type) and yield one façade. -/
def stsLoop {D : Type} (cp contains : Option String) (source : MapSourceArgs D)
    (source_obj : TypedSource D) : List String → Except PyError (List (Facade D))
  | [] => .ok []
  | service_type :: rest =>
    let source := { source with config_path := cp }
    match skipCheck contains source.key with
    | .error e => .error e
    | .ok true => stsLoop cp contains source source_obj rest
    | .ok false =>
      if service_classes.contains service_type then
        match stsLoop cp contains source source_obj rest with
        | .ok fs => .ok (⟨service_type, source_obj⟩ :: fs)
        | .error e => .error e
      else .error (.keyError service_type)

/-- `parse_sources`: for each raw descriptor, resolve it through
`MapSource.from_obj` (before the dictionary ever receives the
`config_path` argument) and yield one façade per declared service type,
subject to the `contains` filter.  The lazy generator is modelled as the
strict list of its yields, with the first raised exception aborting the
sequence. -/
def parse_sources {D : Type} (load_raster load_vector : ResolvedPath → D)
    (project : D → List String → D) (isGeoDataFrame : D → Bool) :
    List (MapSourceArgs D) → Option String → Option String →
    Except PyError (List (Facade D))
  | [], _, _ => .ok []
  | source :: rest, cp, contains =>
    match MapSource.from_obj load_raster load_vector project isGeoDataFrame source with
    | .error e => .error e
    | .ok source_obj =>
      match source.service_types with
      | none => .error (.keyError "service_types")
      | some sts =>
        match stsLoop cp contains source source_obj sts with
        | .error e => .error e
        | .ok fs =>
          match parse_sources load_raster load_vector project isGeoDataFrame rest cp contains with
          | .ok fs2 => .ok (fs ++ fs2)
          | .error e => .error e

/-! ## Concrete data model for the extent resolvers

`RasterSource.full_extent` reads the two spatial coordinate axes of an
xarray-backed grid; `VectorSource.full_extent` reads the `total_bounds`
of the active geometry column of a (geo|spatial)pandas frame.  Coordinate
values are modelled as integers; the `@memoized` property caching is a
pure-function no-op. -/

/-- An axis-aligned bounding box `(xmin, ymin, xmax, ymax)`. -/
structure BBox where
  xmin : Int
  ymin : Int
  xmax : Int
  ymax : Int
deriving DecidableEq, Repr

/-- `array.min()`: the minimum of a coordinate axis, `none` when empty. -/
def listMin : List Int → Option Int
  | [] => none
  | x :: xs => some (xs.foldl min x)

/-- `array.max()`: the maximum of a coordinate axis, `none` when empty. -/
def listMax : List Int → Option Int
  | [] => none
  | x :: xs => some (xs.foldl max x)

/-- The message numpy raises when reducing an empty coordinate axis. -/
def reduceEmptyMsg : String :=
  "zero-size array to reduction operation minimum which has no identity"

/-- The two spatial coordinate axes `data.coords['x']` / `data.coords['y']`
of a raster data object. -/
structure RasterData where
  xcoords : List Int
  ycoords : List Int
deriving DecidableEq, Repr

/-- `RasterSource.full_extent`:
`(x.min(), y.min(), x.max(), y.max())` over the coordinate grid, failing
on an unloaded source with no data object. -/
def RasterSource.full_extent (s : MapSource RasterData) : Except PyError BBox :=
  match s.data with
  | none => .error (.attributeError "NoneType object has no attribute coords")
  | some d =>
    match listMin d.xcoords, listMin d.ycoords, listMax d.xcoords, listMax d.ycoords with
    | some a, some b, some c, some e => .ok ⟨a, b, c, e⟩
    | _, _, _, _ => .error (.valueError reduceEmptyMsg)

/-- One geometry as its sequence of coordinates. -/
abbrev Geometry := List (Int × Int)

/-- A row-wise (geopandas) frame: named columns of geometries.  Non-spatial
columns play no part in extent computation and are not modelled. -/
structure GeoDataFrame where
  columns : List (String × List Geometry)

/-- A columnar (spatialpandas) geometry column: one flat coordinate buffer
plus the length of each geometry. -/
structure FlatGeomColumn where
  flat : List (Int × Int)
  lens : List Nat

/-- A columnar (spatialpandas) frame. -/
structure SpGeoDataFrame where
  columns : List (String × FlatGeomColumn)

/-- Rebuild the row-wise geometry list from a flat coordinate buffer. -/
def unflatten : List Nat → List (Int × Int) → List Geometry
  | [], _ => []
  | n :: ns, ps => ps.take n :: unflatten ns (ps.drop n)

/-- `spatialpandas.GeoDataFrame.to_geopandas`: convert every column to its
row-wise geometry view. -/
def SpGeoDataFrame.to_geopandas (s : SpGeoDataFrame) : GeoDataFrame :=
  ⟨s.columns.map (fun col => (col.1, unflatten col.2.lens col.2.flat))⟩

/-- A vector data object: either already row-wise or columnar. -/
inductive VectorData where
  | gpd (frame : GeoDataFrame)
  | spd (frame : SpGeoDataFrame)

/-- The row-wise view used by `VectorSource.full_extent`: the
`isinstance(self.data, spatialpandas.GeoDataFrame)` branch converts
through `to_geopandas` first. -/
def rowFrame : VectorData → GeoDataFrame
  | .gpd f => f
  | .spd f => f.to_geopandas

/-- geopandas per-geometry bounds: the running min/max over the
coordinates of one geometry (`none` for an empty geometry). -/
def geomBounds : Geometry → Option BBox
  | [] => none
  | q :: qs =>
    some (qs.foldl
      (fun b r => ⟨min b.xmin r.1, min b.ymin r.2, max b.xmax r.1, max b.ymax r.2⟩)
      ⟨q.1, q.2, q.1, q.2⟩)

/-- The bounding box enclosing two bounding boxes. -/
def unionBBox (a b : BBox) : BBox :=
  ⟨min a.xmin b.xmin, min a.ymin b.ymin, max a.xmax b.xmax, max a.ymax b.ymax⟩

/-- Union of optional bounding boxes (`none` is the empty region). -/
def optUnion : Option BBox → Option BBox → Option BBox
  | none, b => b
  | some a, none => some a
  | some a, some b => some (unionBBox a b)

/-- `GeoSeries.total_bounds`: the union of the per-geometry bounds of a
geometry column (`none` when no geometry contributes a coordinate). -/
def total_bounds (gs : List Geometry) : Option BBox :=
  gs.foldl (fun acc g => optUnion acc (geomBounds g)) none

/-- `VectorSource.full_extent`: `total_bounds` of the active geometry
column, converting a columnar frame to its row-wise view first; fails on
an unloaded source with no data object, and with a `KeyError` when the
geometry field names no column. -/
def VectorSource.full_extent (s : MapSource VectorData) : Except PyError BBox :=
  match s.data with
  | none => .error (.typeError "NoneType object is not subscriptable")
  | some vd =>
    match (rowFrame vd).columns.lookup s.geometry_field with
    | none => .error (.keyError s.geometry_field)
    | some col =>
      match total_bounds col with
      | some b => .ok b
      | none => .error (.valueError reduceEmptyMsg)

/-! ## Specification-side definitions

These are stated from the spec's words, to be compared with the
source-derived functions above: the bounding box of a set of points, the
raster coordinate grid as a point set, and a direct characterisation of
the transform pipeline (composed data chain; the last overview-builder
step snapshots the overviews, later plain steps propagate). -/

/-- Extend an optional bounding box by one point. -/
def insPt : Option BBox → (Int × Int) → Option BBox
  | none, q => some ⟨q.1, q.2, q.1, q.2⟩
  | some b, q => some ⟨min b.xmin q.1, min b.ymin q.2, max b.xmax q.1, max b.ymax q.2⟩

/-- The bounding box of a list of points. -/
def bboxOfPoints (ps : List (Int × Int)) : Option BBox := ps.foldl insPt none

/-- The coordinate grid spanned by two axes, as a point list. -/
def gridPoints (xs ys : List Int) : List (Int × Int) :=
  xs.flatMap (fun x => ys.map (fun y => (x, y)))

/-- The primary data object after a step list: the non-overview transforms
composed in declared order (overview builders leave the data unchanged). -/
def dataChain {D : Type} (steps : List (TransformStep D)) (d : D) : D :=
  steps.foldl (fun d t => if isOverviewStep t then d else t.dataFunc d) d

/-- Split a step list around its *last* overview-builder step:
`some (pre, b, post)` with `post` free of overview builders, or `none`
when no overview builder is declared. -/
def lastOverviewSplit {D : Type} :
    List (TransformStep D) →
    Option (List (TransformStep D) × TransformStep D × List (TransformStep D))
  | [] => none
  | t :: rest =>
    match lastOverviewSplit rest with
    | some (pre, b, post) => some (t :: pre, b, post)
    | none => if isOverviewStep t then some ([], t, rest) else none

/-- The overview mapping after a step list, per the spec: with no overview
builder, every pre-existing level is pushed through the composed data
chain; otherwise the last builder snapshots the primary data as it stood
before it and the steps after it propagate to every level. -/
def specOverviews {D : Type} (steps : List (TransformStep D)) (d : D)
    (ov : List (String × D)) : List (String × D) :=
  match lastOverviewSplit steps with
  | none => ov.map (fun p => (p.1, dataChain steps p.2))
  | some (pre, b, post) =>
    (b.overviewFunc (dataChain pre d)).map (fun p => (p.1, dataChain post p.2))

/-! ## Lemmas about the transform pipeline -/

theorem apply_transforms_cons {D : Type} (t : TransformStep D)
    (rest : List (TransformStep D)) (st : PipeState D) :
    MapSource.apply_transforms (t :: rest) st =
      MapSource.apply_transforms rest (applyStep st t) := rfl

theorem dataChain_cons {D : Type} (t : TransformStep D)
    (rest : List (TransformStep D)) (d : D) :
    dataChain (t :: rest) d =
      dataChain rest (if isOverviewStep t then d else t.dataFunc d) := rfl

/-- C1: for every declared transform list, steps run in declared order;
an overview-builder step replaces the overview mapping wholesale with the
builder applied to the current primary data (so only the last builder
survives), while every other step replaces the primary data object and
pushes the same transform through every existing overview entry. -/
theorem C1_transform_pipeline {D : Type} (steps : List (TransformStep D))
    (st : PipeState D) :
    MapSource.apply_transforms steps st =
      ⟨dataChain steps st.data, specOverviews steps st.data st.overviews⟩ := by
  induction steps generalizing st with
  | nil =>
    simp [MapSource.apply_transforms, dataChain, specOverviews, lastOverviewSplit]
  | cons t rest ih =>
    rw [apply_transforms_cons, ih, dataChain_cons]
    cases h : isOverviewStep t with
    | true =>
      cases hs : lastOverviewSplit rest with
      | none =>
        simp [applyStep, h, specOverviews, lastOverviewSplit, hs, dataChain]
      | some triple =>
        obtain ⟨pre, b, post⟩ := triple
        simp [applyStep, h, specOverviews, lastOverviewSplit, hs, dataChain_cons]
    | false =>
      cases hs : lastOverviewSplit rest with
      | none =>
        simp [applyStep, h, specOverviews, lastOverviewSplit, hs, dataChain_cons,
          List.map_map, Function.comp]
      | some triple =>
        obtain ⟨pre, b, post⟩ := triple
        simp [applyStep, h, specOverviews, lastOverviewSplit, hs, dataChain_cons]

/-! ## Lemmas about `load` -/

/-- A successful `load` leaves the source loaded and does not touch the
configuration path or the raster padding. -/
theorem load_ok_spec {D : Type} {f : ResolvedPath → D} {p : D → List String → D}
    {s s' : MapSource D} (h : MapSource.load f p s = .ok s') :
    s'.is_loaded = true ∧ s'.raster_padding = s.raster_padding ∧
      s'.config_path = s.config_path := by
  rw [MapSource.load] at h
  split at h
  · cases h
    refine ⟨?_, rfl, rfl⟩
    assumption
  · split at h
    · cases h
      exact ⟨rfl, rfl, rfl⟩
    · split at h
      · cases h
        exact ⟨rfl, rfl, rfl⟩
      · cases h

/-- A `resolveDataPath` failure is an attribute or type error. -/
theorem resolveDataPath_error_spec {cp fp : Option String} {e : PyError}
    (h : resolveDataPath cp fp = .error e) :
    (∃ m, e = .attributeError m) ∨ (∃ m, e = .typeError m) := by
  have noConfig : ∀ fp' e', resolveNoConfig fp' = .error e' →
      (∃ m, e' = .attributeError m) ∨ (∃ m, e' = .typeError m) := by
    intro fp' e' h'
    rw [resolveNoConfig.eq_def] at h'
    split at h'
    · cases h'
      exact .inl ⟨_, rfl⟩
    · split at h'
      · cases h'
      · split at h'
        · cases h'
        · cases h'
  rw [resolveDataPath.eq_def] at h
  split at h
  · split at h
    · split at h
      · cases h
      · cases h
        exact .inr ⟨_, rfl⟩
    · exact noConfig _ _ h
  · exact noConfig _ _ h

/-- A failing `load` raises an attribute or type error (from path
resolution), never a `ValueError`. -/
theorem load_error_spec {D : Type} {f : ResolvedPath → D} {p : D → List String → D}
    {s : MapSource D} {e : PyError} (h : MapSource.load f p s = .error e) :
    (∃ m, e = .attributeError m) ∨ (∃ m, e = .typeError m) := by
  rw [MapSource.load] at h
  split at h
  · cases h
  · split at h
    · cases h
    · split at h
      · cases h
      · cases h
        rename_i hres
        exact resolveDataPath_error_spec hres

theorem filter_length_ne_zero_eq_any {α : Type} (l : List α) (f : α → Bool) :
    ((l.filter f).length != 0) = l.any f := by
  induction l with
  | nil => rfl
  | cons x xs ih =>
    cases hx : f x <;> simp [List.filter_cons, hx, List.any_cons, ih]

theorem base_is_loaded {D : Type} (g : D → Bool) (a : MapSourceArgs D) :
    (MapSource.base g a).is_loaded = false := rfl

theorem base_transforms {D : Type} (g : D → Bool) (a : MapSourceArgs D) :
    (MapSource.base g a).transforms = a.transforms.getD [] := rfl

/-- C2: `load()` is idempotent — a no-op returning the same state when the
source is already loaded, and loading an already-once-loaded source
returns it unchanged (so two calls yield the data object and overview
mapping of one call). -/
theorem C2_load_idempotent {D : Type} (f : ResolvedPath → D)
    (p : D → List String → D) :
    (∀ s : MapSource D, s.is_loaded = true → MapSource.load f p s = .ok s) ∧
    (∀ s s' : MapSource D, MapSource.load f p s = .ok s' →
      MapSource.load f p s' = .ok s') := by
  have h1 : ∀ s : MapSource D, s.is_loaded = true → MapSource.load f p s = .ok s := by
    intro s hs
    rw [MapSource.load, if_pos hs]
  exact ⟨h1, fun s s' h => h1 s' (load_ok_spec h).1⟩

/-- C3: construction invokes `load()` immediately iff the `preload` flag is
set or some declared transform step name contains the overview-builder
marker substring; otherwise the constructed source is unloaded. -/
theorem C3_eager_load_trigger {D : Type} (f : ResolvedPath → D)
    (p : D → List String → D) (g : D → Bool) (a : MapSourceArgs D)
    (s : MapSource D) (h : MapSource.init f p g a = .ok s) :
    s.is_loaded = true ↔
      (a.preload = true ∨
        (a.transforms.getD []).any (fun t => strContains t.name "overviews") = true) := by
  rw [MapSource.init] at h
  split at h
  · cases h
  · simp only [] at h
    split at h
    · rename_i htr
      rw [base_transforms, filter_length_ne_zero_eq_any, Bool.or_eq_true] at htr
      exact iff_of_true (load_ok_spec h).1 htr
    · rename_i htr
      cases h
      rw [base_transforms, filter_length_ne_zero_eq_any, Bool.or_eq_true] at htr
      exact iff_of_false (by simp [base_is_loaded]) htr

/-- C6: the constructor raises its `ValueError` exactly when
`span == 'min/max'` is declared together with a missing `zfield` and a
non-raster geometry kind; with a raster geometry kind or a declared value
field the check passes. -/
theorem C6_span_minmax_check {D : Type} (f : ResolvedPath → D)
    (p : D → List String → D) (g : D → Bool) (a : MapSourceArgs D) :
    MapSource.init f p g a = .error (.valueError zfieldErrorMsg) ↔
      (spanEqMinMax a.span = true ∧ a.zfield = none ∧
        a.geometry_type ≠ some "raster") := by
  constructor
  · intro h
    rw [MapSource.init] at h
    split at h
    · assumption
    · simp only [] at h
      split at h
      · rcases load_error_spec h with ⟨m, hm⟩ | ⟨m, hm⟩ <;> cases hm
      · cases h
  · intro hc
    rw [MapSource.init, if_pos hc]

/-- C10: the stored `raster_padding` attribute is the hard-coded `0`
whatever `raster_padding` argument the constructor received; the argument
value is discarded. -/
theorem C10_raster_padding_discarded {D : Type} (f : ResolvedPath → D)
    (p : D → List String → D) (g : D → Bool) :
    (∀ (a : MapSourceArgs D) (n : Nat),
      MapSource.init f p g { a with raster_padding := n } = MapSource.init f p g a) ∧
    (∀ (a : MapSourceArgs D) (s : MapSource D),
      MapSource.init f p g a = .ok s → s.raster_padding = 0) := by
  constructor
  · intro a n
    rfl
  · intro a s h
    rw [MapSource.init] at h
    split at h
    · cases h
    · simp only [] at h
      split at h
      · exact (load_ok_spec h).2.1
      · cases h
        rfl

/-! ## Lemmas about the catalog builder -/

theorem listInfix_nil_left (l : List Char) : listInfix [] l = true := by
  cases l with
  | nil => rfl
  | cons c rest => rfl

theorem strContains_empty_needle (h : String) : strContains h "" = true :=
  listInfix_nil_left h.toList

theorem strContains_empty_haystack (c : String) (hc : c ≠ "") :
    strContains "" c = false := by
  rw [strContains]
  cases c with
  | mk l =>
    cases l with
    | nil => exact absurd (by decide) hc
    | cons a rest => rfl

theorem skipCheck_of_pred_true {c : String} {key : Option String}
    (h : strContains (key.getD "") c = true) : skipCheck (some c) key = .ok false := by
  rw [skipCheck.eq_def]
  simp only []
  by_cases hc : c = ""
  · rw [if_pos hc]
  · rw [if_neg hc]
    cases key with
    | none => exact absurd h (by simp [strContains_empty_haystack c hc])
    | some k => simp only [Option.getD] at h; simp [h]

theorem skipCheck_of_pred_false {c : String} {key : Option String}
    (h : strContains (key.getD "") c = false) :
    (∃ e, skipCheck (some c) key = .error e) ∨ skipCheck (some c) key = .ok true := by
  rw [skipCheck.eq_def]
  simp only []
  by_cases hc : c = ""
  · subst hc
    exact absurd h (by simp [strContains_empty_needle])
  · rw [if_neg hc]
    cases key with
    | none => exact .inl ⟨_, rfl⟩
    | some k => simp only [Option.getD] at h; simp [h]

theorem stsLoop_filter_pass {D : Type} {c : String} (cp : Option String)
    (src : MapSourceArgs D) (obj : TypedSource D) (sts : List String)
    (hsk : skipCheck (some c) src.key = .ok false) :
    stsLoop cp (some c) src obj sts = stsLoop cp none src obj sts := by
  induction sts generalizing src with
  | nil => rfl
  | cons st rest ih =>
    have hsk' : skipCheck (some c) ({ src with config_path := cp } : MapSourceArgs D).key =
        .ok false := hsk
    have hnone : skipCheck none ({ src with config_path := cp } : MapSourceArgs D).key =
        .ok false := rfl
    rw [stsLoop, stsLoop, hsk', hnone]
    simp only []
    rw [ih { src with config_path := cp } hsk]

theorem stsLoop_filter_skip {D : Type} {c : String} (cp : Option String)
    (src : MapSourceArgs D) (obj : TypedSource D) (sts : List String)
    (hsk : skipCheck (some c) src.key = .ok true) :
    stsLoop cp (some c) src obj sts = .ok [] := by
  induction sts generalizing src with
  | nil => rfl
  | cons st rest ih =>
    have hsk' : skipCheck (some c) ({ src with config_path := cp } : MapSourceArgs D).key =
        .ok true := hsk
    rw [stsLoop, hsk']
    exact ih { src with config_path := cp } hsk

theorem stsLoop_none_length {D : Type} (cp : Option String) :
    ∀ (sts : List String) (src : MapSourceArgs D) (obj : TypedSource D)
      (fs : List (Facade D)), stsLoop cp none src obj sts = .ok fs →
      fs.length = sts.length := by
  intro sts
  induction sts with
  | nil =>
    intro src obj fs h
    cases h
    rfl
  | cons st rest ih =>
    intro src obj fs h
    rw [stsLoop] at h
    have hnone : skipCheck none ({ src with config_path := cp } : MapSourceArgs D).key =
        .ok false := rfl
    rw [hnone] at h
    simp only [] at h
    split at h
    · split at h
      · rename_i fs' hrec
        cases h
        simp [ih _ _ _ hrec]
      · cases h
    · cases h

theorem stsLoop_cp_invariant {D : Type} {cp1 cp2 ct : Option String} :
    ∀ (sts : List String) (s1 s2 : MapSourceArgs D) (obj : TypedSource D),
      s1.key = s2.key →
      stsLoop cp1 ct s1 obj sts = stsLoop cp2 ct s2 obj sts := by
  intro sts
  induction sts with
  | nil => intro s1 s2 obj hk; rfl
  | cons st rest ih =>
    intro s1 s2 obj hk
    have hks : skipCheck ct ({ s1 with config_path := cp1 } : MapSourceArgs D).key =
        skipCheck ct ({ s2 with config_path := cp2 } : MapSourceArgs D).key := by
      show skipCheck ct s1.key = skipCheck ct s2.key
      rw [hk]
    have hrec : stsLoop cp1 ct ({ s1 with config_path := cp1 }) obj rest =
        stsLoop cp2 ct ({ s2 with config_path := cp2 }) obj rest :=
      ih _ _ obj (by show s1.key = s2.key; exact hk)
    rw [stsLoop, stsLoop, hks, hrec]

theorem init_ok_config_path {D : Type} {f : ResolvedPath → D}
    {p : D → List String → D} {g : D → Bool} {a : MapSourceArgs D}
    {s : MapSource D} (h : MapSource.init f p g a = .ok s) :
    s.config_path = a.config_path := by
  rw [MapSource.init] at h
  split at h
  · cases h
  · try simp only [] at h
    split at h
    · exact (load_ok_spec h).2.2
    · cases h
      rfl

theorem from_obj_cond {D : Type} (obj : MapSourceArgs D) :
    (match obj.transforms with
      | some ts => !ts.isEmpty &&
          ((ts.filter (fun t => t.name == "raster_to_categorical_points")).length != 0)
      | none => false) =
      (obj.transforms.getD []).any (fun t => t.name == "raster_to_categorical_points") := by
  cases obj.transforms with
  | none => rfl
  | some ts =>
    cases ts with
    | nil => rfl
    | cons t rest =>
      simp only [Option.getD]
      rw [filter_length_ne_zero_eq_any]
      simp

/-- C8: the catalog builder resolves a raw descriptor to the raster-backed
subtype exactly when it declares a raster geometry kind or its transform
list declares a `raster_to_categorical_points` transform, and to the
vector-backed subtype otherwise. -/
theorem C8_subtype_resolution {D : Type} (lr lv : ResolvedPath → D)
    (p : D → List String → D) (g : D → Bool) (obj : MapSourceArgs D)
    (ts : TypedSource D) (h : MapSource.from_obj lr lv p g obj = .ok ts) :
    ts.isRaster = true ↔
      (obj.geometry_type = some "raster" ∨
        (obj.transforms.getD []).any
          (fun t => t.name == "raster_to_categorical_points") = true) := by
  rw [MapSource.from_obj] at h
  try simp only [] at h
  split at h
  · rename_i hcond
    rw [from_obj_cond] at hcond
    cases hi : MapSource.init lr p g obj with
    | error e => rw [hi] at h; simp only [Except.map] at h; cases h
    | ok s =>
      rw [hi] at h
      simp only [Except.map] at h
      cases h
      exact iff_of_true rfl hcond
  · rename_i hcond
    rw [from_obj_cond] at hcond
    cases hi : MapSource.init lv p g obj with
    | error e => rw [hi] at h; simp only [Except.map] at h; cases h
    | ok s =>
      rw [hi] at h
      simp only [Except.map] at h
      cases h
      exact iff_of_false (by simp [TypedSource.isRaster]) hcond

/-- C9: the `config_path` argument of `parse_sources` never reaches the
constructed sources — the yielded façades are independent of it, a
constructed source's `config_path` is exactly the raw descriptor's own
entry, and with no such entry the configuration-directory branch of the
path resolution cannot be taken. -/
theorem C9_config_path_isolated {D : Type} (lr lv : ResolvedPath → D)
    (p : D → List String → D) (g : D → Bool) :
    (∀ (srcs : List (MapSourceArgs D)) (cp1 cp2 ct : Option String),
      parse_sources lr lv p g srcs cp1 ct = parse_sources lr lv p g srcs cp2 ct) ∧
    (∀ (obj : MapSourceArgs D) (ts : TypedSource D),
      MapSource.from_obj lr lv p g obj = .ok ts →
        ts.state.config_path = obj.config_path) ∧
    (∀ (fp : Option String) (r : ResolvedPath),
      resolveDataPath none fp = .ok r → r.isConfigRelative = false) := by
  refine ⟨?_, ?_, ?_⟩
  · intro srcs cp1 cp2 ct
    induction srcs with
    | nil => rfl
    | cons s rest ih =>
      rw [parse_sources, parse_sources]
      have hst := @stsLoop_cp_invariant D cp1 cp2 ct
      cases MapSource.from_obj lr lv p g s with
      | error e => rfl
      | ok obj =>
        simp only []
        cases s.service_types with
        | none => rfl
        | some sts =>
          simp only []
          rw [hst sts s s obj rfl, ih]
  · intro obj ts h
    rw [MapSource.from_obj] at h
    try simp only [] at h
    split at h
    · cases hi : MapSource.init lr p g obj with
      | error e => rw [hi] at h; simp only [Except.map] at h; cases h
      | ok s =>
        rw [hi] at h
        simp only [Except.map] at h
        cases h
        exact init_ok_config_path hi
    · cases hi : MapSource.init lv p g obj with
      | error e => rw [hi] at h; simp only [Except.map] at h; cases h
      | ok s =>
        rw [hi] at h
        simp only [Except.map] at h
        cases h
        exact init_ok_config_path hi
  · intro fp r h
    rw [resolveDataPath.eq_def] at h
    simp only [] at h
    rw [resolveNoConfig.eq_def] at h
    split at h
    · cases h
    · split at h
      · cases h
        rfl
      · split at h
        · cases h
          rfl
        · cases h
          rfl

/-- C7: with no filter, the catalog builder yields one façade per
(source, declared service type) pair — `N * S` of them when each of the
`N` descriptors declares `S` service types; with a filter string, it
yields exactly the façades of the descriptors whose key contains that
substring. -/
theorem C7_catalog_facades {D : Type} (lr lv : ResolvedPath → D)
    (p : D → List String → D) (g : D → Bool) :
    (∀ (srcs : List (MapSourceArgs D)) (cp : Option String) (S : Nat)
      (fs : List (Facade D)),
      (∀ s ∈ srcs, s.service_types ≠ none ∧ (s.service_types.getD []).length = S) →
      parse_sources lr lv p g srcs cp none = .ok fs →
      fs.length = srcs.length * S) ∧
    (∀ (srcs : List (MapSourceArgs D)) (cp : Option String) (c : String)
      (fs : List (Facade D)),
      parse_sources lr lv p g srcs cp (some c) = .ok fs →
      parse_sources lr lv p g
        (srcs.filter (fun s => strContains (s.key.getD "") c)) cp none = .ok fs) := by
  constructor
  · intro srcs
    induction srcs with
    | nil =>
      intro cp S fs hall h
      cases h
      simp
    | cons s rest ih =>
      intro cp S fs hall h
      rw [parse_sources] at h
      cases hfo : MapSource.from_obj lr lv p g s with
      | error e => rw [hfo] at h; cases h
      | ok obj =>
        rw [hfo] at h
        simp only [] at h
        cases hst : s.service_types with
        | none => exact absurd hst (hall s (by simp)).1
        | some sts =>
          rw [hst] at h
          simp only [] at h
          cases hsl : stsLoop cp none s obj sts with
          | error e => rw [hsl] at h; cases h
          | ok fs1 =>
            rw [hsl] at h
            simp only [] at h
            cases hpr : parse_sources lr lv p g rest cp none with
            | error e => rw [hpr] at h; cases h
            | ok fs2 =>
              rw [hpr] at h
              simp only [] at h
              cases h
              have h1 : fs1.length = sts.length := stsLoop_none_length cp sts s obj fs1 hsl
              have hS : sts.length = S := by
                have hx := (hall s (by simp)).2
                rw [hst] at hx
                simpa using hx
              have h2 : fs2.length = rest.length * S :=
                ih cp S fs2 (fun x hx => hall x (by simp [hx])) hpr
              rw [List.length_append, h1, hS, h2, List.length_cons]
              ring
  · intro srcs
    induction srcs with
    | nil =>
      intro cp c fs h
      exact h
    | cons s rest ih =>
      intro cp c fs h
      rw [parse_sources] at h
      cases hfo : MapSource.from_obj lr lv p g s with
      | error e => rw [hfo] at h; cases h
      | ok obj =>
        rw [hfo] at h
        simp only [] at h
        cases hst : s.service_types with
        | none => rw [hst] at h; simp only [] at h; cases h
        | some sts =>
          rw [hst] at h
          simp only [] at h
          cases hsl : stsLoop cp (some c) s obj sts with
          | error e => rw [hsl] at h; cases h
          | ok fs1 =>
            rw [hsl] at h
            simp only [] at h
            cases hpr : parse_sources lr lv p g rest cp (some c) with
            | error e => rw [hpr] at h; cases h
            | ok fs2 =>
              rw [hpr] at h
              simp only [] at h
              cases h
              have ihr := ih cp c fs2 hpr
              by_cases hp : strContains (s.key.getD "") c = true
              · have hsk := skipCheck_of_pred_true hp
                have hpass := stsLoop_filter_pass cp s obj sts hsk
                have hfilter :
                    (s :: rest).filter (fun x => strContains (x.key.getD "") c) =
                      s :: rest.filter (fun x => strContains (x.key.getD "") c) := by
                  simp [List.filter_cons, hp]
                rw [hfilter, parse_sources, hfo]
                simp only []
                rw [hst]
                simp only []
                rw [← hpass, hsl]
                simp only []
                rw [ihr]
              · rw [Bool.not_eq_true] at hp
                have hfilter :
                    (s :: rest).filter (fun x => strContains (x.key.getD "") c) =
                      rest.filter (fun x => strContains (x.key.getD "") c) := by
                  simp [List.filter_cons, hp]
                rcases skipCheck_of_pred_false hp with ⟨e, hske⟩ | hskt
                · cases sts with
                  | nil =>
                    rw [stsLoop] at hsl
                    cases hsl
                    rw [hfilter]
                    simpa using ihr
                  | cons st sts2 =>
                    rw [stsLoop] at hsl
                    have hske' : skipCheck (some c)
                        ({ s with config_path := cp } : MapSourceArgs D).key = .error e := hske
                    rw [hske'] at hsl
                    simp only [] at hsl
                    cases hsl
                · have hskip := stsLoop_filter_skip cp s obj sts hskt
                  rw [hskip] at hsl
                  cases hsl
                  rw [hfilter]
                  simpa using ihr

/-! ## Lemmas about bounding boxes and the extent resolvers -/

theorem foldl_min_comm (l : List Int) : ∀ a b : Int,
    l.foldl min (min a b) = min a (l.foldl min b) := by
  induction l with
  | nil => intro a b; rfl
  | cons c l ih =>
    intro a b
    show l.foldl min (min (min a b) c) = min a (l.foldl min (min b c))
    rw [min_assoc, ih]

theorem foldl_max_comm (l : List Int) : ∀ a b : Int,
    l.foldl max (max a b) = max a (l.foldl max b) := by
  induction l with
  | nil => intro a b; rfl
  | cons c l ih =>
    intro a b
    show l.foldl max (max (max a b) c) = max a (l.foldl max (max b c))
    rw [max_assoc, ih]

theorem foldl_insPt_some (ps : List (Int × Int)) : ∀ b : BBox,
    ps.foldl insPt (some b) =
      some ⟨(ps.map Prod.fst).foldl min b.xmin, (ps.map Prod.snd).foldl min b.ymin,
        (ps.map Prod.fst).foldl max b.xmax, (ps.map Prod.snd).foldl max b.ymax⟩ := by
  induction ps with
  | nil => intro b; rfl
  | cons q ps ih =>
    intro b
    show ps.foldl insPt
      (some ⟨min b.xmin q.1, min b.ymin q.2, max b.xmax q.1, max b.ymax q.2⟩) = _
    rw [ih]
    rfl

theorem bboxOfPoints_cons (q : Int × Int) (ps : List (Int × Int)) :
    bboxOfPoints (q :: ps) =
      some ⟨(ps.map Prod.fst).foldl min q.1, (ps.map Prod.snd).foldl min q.2,
        (ps.map Prod.fst).foldl max q.1, (ps.map Prod.snd).foldl max q.2⟩ := by
  show ps.foldl insPt (some ⟨q.1, q.2, q.1, q.2⟩) = _
  rw [foldl_insPt_some]

theorem bboxOfPoints_append (xs ys : List (Int × Int)) :
    bboxOfPoints (xs ++ ys) = optUnion (bboxOfPoints xs) (bboxOfPoints ys) := by
  cases xs with
  | nil => rfl
  | cons x xs =>
    cases ys with
    | nil => rw [List.append_nil, bboxOfPoints_cons]; rfl
    | cons y ys =>
      rw [List.cons_append, bboxOfPoints_cons, bboxOfPoints_cons, bboxOfPoints_cons]
      simp only [optUnion, unionBBox, List.map_append, List.foldl_append,
        List.map_cons, List.foldl_cons, foldl_min_comm, foldl_max_comm]

theorem optUnion_assoc (a b c : Option BBox) :
    optUnion (optUnion a b) c = optUnion a (optUnion b c) := by
  cases a <;> cases b <;> cases c <;>
    simp [optUnion, unionBBox, min_assoc, max_assoc]

theorem foldl_geomStep (qs : List (Int × Int)) : ∀ b : BBox,
    some (qs.foldl
      (fun b r => (⟨min b.xmin r.1, min b.ymin r.2, max b.xmax r.1, max b.ymax r.2⟩ : BBox))
      b) = qs.foldl insPt (some b) := by
  induction qs with
  | nil => intro b; rfl
  | cons r qs ih =>
    intro b
    exact ih ⟨min b.xmin r.1, min b.ymin r.2, max b.xmax r.1, max b.ymax r.2⟩

theorem geomBounds_eq (g : Geometry) : geomBounds g = bboxOfPoints g := by
  cases g with
  | nil => rfl
  | cons q qs => exact foldl_geomStep qs ⟨q.1, q.2, q.1, q.2⟩

theorem total_bounds_eq (gs : List Geometry) :
    total_bounds gs = bboxOfPoints gs.flatten := by
  suffices h : ∀ acc : Option BBox,
      gs.foldl (fun acc g => optUnion acc (geomBounds g)) acc =
        optUnion acc (bboxOfPoints gs.flatten) by
    have hn := h none
    exact hn
  induction gs with
  | nil => intro acc; cases acc <;> rfl
  | cons g gs ih =>
    intro acc
    show gs.foldl _ (optUnion acc (geomBounds g)) = _
    rw [ih, List.flatten_cons, bboxOfPoints_append, geomBounds_eq, optUnion_assoc]

theorem foldl_min_const (l : List Int) : ∀ x : Int,
    (l.map (fun _ => x)).foldl min x = x := by
  induction l with
  | nil => intro x; rfl
  | cons a l ih =>
    intro x
    show (l.map (fun _ => x)).foldl min (min x x) = x
    rw [min_self]
    exact ih x

theorem foldl_max_const (l : List Int) : ∀ x : Int,
    (l.map (fun _ => x)).foldl max x = x := by
  induction l with
  | nil => intro x; rfl
  | cons a l ih =>
    intro x
    show (l.map (fun _ => x)).foldl max (max x x) = x
    rw [max_self]
    exact ih x

theorem foldl_min_replicate (n : Nat) (x : Int) :
    (List.replicate n x).foldl min x = x := by
  induction n with
  | zero => rfl
  | succ n ih =>
    show (List.replicate n x).foldl min (min x x) = x
    rw [min_self]
    exact ih

theorem foldl_max_replicate (n : Nat) (x : Int) :
    (List.replicate n x).foldl max x = x := by
  induction n with
  | zero => rfl
  | succ n ih =>
    show (List.replicate n x).foldl max (max x x) = x
    rw [max_self]
    exact ih

theorem bbox_column (x y : Int) (ys : List Int) :
    bboxOfPoints ((y :: ys).map (fun t => (x, t))) =
      some ⟨x, ys.foldl min y, x, ys.foldl max y⟩ := by
  rw [List.map_cons, bboxOfPoints_cons]
  simp only [List.map_map, Function.comp]
  simp [foldl_min_const, foldl_max_const, List.map_id',
    foldl_min_replicate, foldl_max_replicate]

theorem gridPoints_nil_right (xs : List Int) : gridPoints xs [] = [] := by
  induction xs with
  | nil => rfl
  | cons x xs ih =>
    rw [gridPoints] at ih ⊢
    rw [List.flatMap_cons, ih]
    rfl

theorem bbox_grid (x : Int) (xs : List Int) (y : Int) (ys : List Int) :
    bboxOfPoints (gridPoints (x :: xs) (y :: ys)) =
      some ⟨xs.foldl min x, ys.foldl min y, xs.foldl max x, ys.foldl max y⟩ := by
  induction xs generalizing x with
  | nil =>
    rw [gridPoints]
    simp only [List.flatMap_cons, List.flatMap_nil, List.append_nil]
    exact bbox_column x y ys
  | cons x2 xs ih =>
    rw [gridPoints, List.flatMap_cons]
    rw [show ((x2 :: xs).flatMap fun a => (y :: ys).map (fun t => (a, t))) =
      gridPoints (x2 :: xs) (y :: ys) from rfl]
    rw [bboxOfPoints_append, bbox_column, ih x2]
    simp only [optUnion, unionBBox, min_self, max_self]
    rw [← foldl_min_comm, ← foldl_max_comm]
    rfl

/-- C4: the computed full extent refines the spec's bounding boxes — for a
raster source it is the bounding box of the coordinate grid's point set,
and for a vector source the bounding box of every coordinate of the active
geometry column (converting a columnar frame to rows first); rebuilding a
well-formed columnar buffer row-wise preserves exactly its coordinates. -/
theorem C4_full_extent_spec :
    (∀ (s : MapSource RasterData) (d : RasterData), s.data = some d →
      RasterSource.full_extent s =
        (match bboxOfPoints (gridPoints d.xcoords d.ycoords) with
         | some b => .ok b
         | none => .error (.valueError reduceEmptyMsg))) ∧
    (∀ (s : MapSource VectorData) (vd : VectorData) (col : List Geometry),
      s.data = some vd →
      (rowFrame vd).columns.lookup s.geometry_field = some col →
      VectorSource.full_extent s =
        (match bboxOfPoints col.flatten with
         | some b => .ok b
         | none => .error (.valueError reduceEmptyMsg))) ∧
    (∀ (lens : List Nat) (ps : List (Int × Int)), lens.sum = ps.length →
      (unflatten lens ps).flatten = ps) := by
  refine ⟨?_, ?_, ?_⟩
  · intro s d hd
    rw [RasterSource.full_extent, hd]
    simp only []
    obtain ⟨xs, ys⟩ := d
    cases xs with
    | nil => cases ys <;> rfl
    | cons x xs =>
      cases ys with
      | nil =>
        rw [show (⟨x :: xs, []⟩ : RasterData).ycoords = [] from rfl,
          show (⟨x :: xs, []⟩ : RasterData).xcoords = x :: xs from rfl,
          gridPoints_nil_right]
        rfl
      | cons y ys =>
        rw [show (⟨x :: xs, y :: ys⟩ : RasterData).ycoords = y :: ys from rfl,
          show (⟨x :: xs, y :: ys⟩ : RasterData).xcoords = x :: xs from rfl,
          bbox_grid]
        rfl
  · intro s vd col hd hcol
    rw [VectorSource.full_extent, hd]
    simp only []
    rw [hcol]
    simp only []
    rw [total_bounds_eq]
  · intro lens
    induction lens with
    | nil =>
      intro ps h
      have hps : ps = [] := List.length_eq_zero.mp h.symm
      subst hps
      rfl
    | cons n ns ih =>
      intro ps h
      rw [List.sum_cons] at h
      have hdrop : ns.sum = (ps.drop n).length := by
        rw [List.length_drop]
        omega
      rw [show unflatten (n :: ns) ps = ps.take n :: unflatten ns (ps.drop n) from rfl,
        List.flatten_cons, ih (ps.drop n) hdrop, List.take_append_drop]

/-! ## C5: the extent resolvers are not guarded by the loaded flag -/

/-- A source whose data object was supplied at construction but which was
never loaded. -/
def c5UnloadedRaster : MapSource RasterData :=
  { data := some ⟨[0, 2], [1, 3]⟩ }

/-- C5 counterexample: an unloaded raster source with a construction-time
data object answers its full extent successfully — requesting the extent
before `load()` completes does not fail, let alone with a dedicated
not-loaded error. -/
theorem C5_counterexample :
    c5UnloadedRaster.is_loaded = false ∧
      RasterSource.full_extent c5UnloadedRaster = .ok ⟨0, 1, 2, 3⟩ := by
  exact ⟨rfl, rfl⟩

/-- C5 (amended): the extent accessors never consult the loaded flag; they
fail — with a generic built-in error (an attribute error on the raster
path's missing `.coords`, a type error on the vector path's `None[...]`
subscript), no dedicated `NotLoadedError` exists — exactly when no data
object is present, and behave identically on loaded and unloaded
states. -/
theorem C5_extent_unguarded :
    (∀ s : MapSource RasterData, s.data = none →
      RasterSource.full_extent s =
        .error (.attributeError "NoneType object has no attribute coords")) ∧
    (∀ (s : MapSource RasterData) (b : Bool),
      RasterSource.full_extent { s with is_loaded := b } =
        RasterSource.full_extent s) ∧
    (∀ s : MapSource VectorData, s.data = none →
      VectorSource.full_extent s =
        .error (.typeError "NoneType object is not subscriptable")) ∧
    (∀ (s : MapSource VectorData) (b : Bool),
      VectorSource.full_extent { s with is_loaded := b } =
        VectorSource.full_extent s) := by
  refine ⟨?_, ?_, ?_, ?_⟩
  · intro s h
    rw [RasterSource.full_extent, h]
  · intro s b
    rfl
  · intro s h
    rw [VectorSource.full_extent, h]
  · intro s b
    rfl

/-! ## Concrete witnesses -/

/-- A trivial data loader for witness instantiations. -/
def unitLoad : ResolvedPath → Unit := fun _ => ()

/-- A trivial field projection for witness instantiations. -/
def unitProject : Unit → List String → Unit := fun d _ => d

/-- A trivial `isinstance` test for witness instantiations. -/
def unitIsGDF : Unit → Bool := fun _ => false

def c5NoDataRaster : MapSource RasterData := {}

theorem C5_witness :
    c5NoDataRaster.data = none ∧
      RasterSource.full_extent c5NoDataRaster =
        .error (.attributeError "NoneType object has no attribute coords") :=
  ⟨rfl, C5_extent_unguarded.1 c5NoDataRaster rfl⟩

def c2Loaded : MapSource Unit := { is_loaded := true }

def c2Start : MapSource Unit := { data := some () }

def c2Once : MapSource Unit := { data := some (), is_loaded := true }

theorem C2_witness :
    MapSource.load unitLoad unitProject c2Loaded = .ok c2Loaded ∧
      MapSource.load unitLoad unitProject c2Once = .ok c2Once :=
  ⟨(C2_load_idempotent unitLoad unitProject).1 c2Loaded rfl,
   (C2_load_idempotent unitLoad unitProject).2 c2Start c2Once rfl⟩

def c3Args : MapSourceArgs Unit := {}

def c3Base : MapSource Unit := MapSource.base unitIsGDF c3Args

theorem C3_witness :
    MapSource.init unitLoad unitProject unitIsGDF c3Args = .ok c3Base ∧
      (c3Base.is_loaded = true ↔
        (c3Args.preload = true ∨
          (c3Args.transforms.getD []).any
            (fun t => strContains t.name "overviews") = true)) :=
  ⟨rfl, C3_eager_load_trigger unitLoad unitProject unitIsGDF c3Args c3Base rfl⟩

def c4Raster : MapSource RasterData := { data := some ⟨[5, -1], [2, 7]⟩ }

def c4Frame : GeoDataFrame := ⟨[("geometry", [[(0, 0), (4, 2)], [(1, 5)]])]⟩

def c4Vector : MapSource VectorData := { data := some (.gpd c4Frame) }

theorem C4_witness :
    RasterSource.full_extent c4Raster =
      (match bboxOfPoints (gridPoints ([5, -1] : List Int) ([2, 7] : List Int)) with
       | some b => .ok b
       | none => .error (.valueError reduceEmptyMsg)) ∧
    VectorSource.full_extent c4Vector =
      (match bboxOfPoints ([[(0, 0), (4, 2)], [(1, 5)]] : List Geometry).flatten with
       | some b => .ok b
       | none => .error (.valueError reduceEmptyMsg)) ∧
    (unflatten [2, 1] [((0 : Int), (0 : Int)), (4, 2), (1, 5)]).flatten =
      [((0 : Int), (0 : Int)), (4, 2), (1, 5)] :=
  ⟨C4_full_extent_spec.1 c4Raster ⟨[5, -1], [2, 7]⟩ rfl,
   C4_full_extent_spec.2.1 c4Vector (.gpd c4Frame) [[(0, 0), (4, 2)], [(1, 5)]]
     rfl (by decide),
   C4_full_extent_spec.2.2 [2, 1] [((0 : Int), (0 : Int)), (4, 2), (1, 5)] (by decide)⟩

def c7Src1 : MapSourceArgs Unit :=
  { key := some "world-countries", service_types := some ["tile", "wms"] }

def c7Src2 : MapSourceArgs Unit :=
  { key := some "elevation", service_types := some ["tile", "wms"] }

def c7Base1 : MapSource Unit := MapSource.base unitIsGDF c7Src1

def c7Base2 : MapSource Unit := MapSource.base unitIsGDF c7Src2

def c7Facades : List (Facade Unit) :=
  [⟨"tile", .vector c7Base1⟩, ⟨"wms", .vector c7Base1⟩,
   ⟨"tile", .vector c7Base2⟩, ⟨"wms", .vector c7Base2⟩]

theorem C7_witness :
    c7Facades.length = 2 * 2 ∧
      parse_sources unitLoad unitLoad unitProject unitIsGDF
        ([c7Src1, c7Src2].filter (fun s => strContains (s.key.getD "") "elev"))
        none none =
        .ok [⟨"tile", .vector c7Base2⟩, ⟨"wms", .vector c7Base2⟩] :=
  ⟨(C7_catalog_facades unitLoad unitLoad unitProject unitIsGDF).1
      [c7Src1, c7Src2] none 2 c7Facades (by decide) rfl,
   (C7_catalog_facades unitLoad unitLoad unitProject unitIsGDF).2
      [c7Src1, c7Src2] none "elev"
      [⟨"tile", .vector c7Base2⟩, ⟨"wms", .vector c7Base2⟩] rfl⟩

def c8Obj : MapSourceArgs Unit := { geometry_type := some "raster" }

def c8Typed : TypedSource Unit := .raster (MapSource.base unitIsGDF c8Obj)

theorem C8_witness :
    MapSource.from_obj unitLoad unitLoad unitProject unitIsGDF c8Obj = .ok c8Typed ∧
      (c8Typed.isRaster = true ↔
        (c8Obj.geometry_type = some "raster" ∨
          (c8Obj.transforms.getD []).any
            (fun t => t.name == "raster_to_categorical_points") = true)) :=
  ⟨rfl, C8_subtype_resolution unitLoad unitLoad unitProject unitIsGDF c8Obj c8Typed rfl⟩

def c9Obj : MapSourceArgs Unit := { config_path := some "conf/map.yaml" }

def c9Typed : TypedSource Unit := .vector (MapSource.base unitIsGDF c9Obj)

theorem C9_witness :
    c9Typed.state.config_path = c9Obj.config_path ∧
      (ResolvedPath.cwdRelative "data.tif").isConfigRelative = false :=
  ⟨(C9_config_path_isolated unitLoad unitLoad unitProject unitIsGDF).2.1
      c9Obj c9Typed rfl,
   (C9_config_path_isolated unitLoad unitLoad unitProject unitIsGDF).2.2
      (some "data.tif") (.cwdRelative "data.tif") (by rfl)⟩

def c10Args : MapSourceArgs Unit := { raster_padding := 9 }

def c10Base : MapSource Unit := MapSource.base unitIsGDF c10Args

theorem C10_witness :
    MapSource.init unitLoad unitProject unitIsGDF c10Args = .ok c10Base ∧
      c10Base.raster_padding = 0 :=
  ⟨rfl,
   (C10_raster_padding_discarded unitLoad unitProject unitIsGDF).2 c10Args c10Base rfl⟩

end Mapshader
